import Mathlib

/-!
Verification of the activity executor of `chaoslib` (chaostoolkit-lib).

The development shallowly embeds `chaoslib/activity.py`:

* Python values flowing through experiment documents are modelled by `PyVal`
  (dictionaries are association lists, numbers are rationals);
* `ensure_activity_is_valid` is translated branch by branch, returning
  `Except ValErr Unit` where `ValErr.invalidActivity` stands for the
  `InvalidActivity` exception and `ValErr.pyCrash` for an uncaught Python
  error (e.g. `AttributeError` when `.get` is called on a non-mapping);
* `execute_activity` is translated into a clock-passing function: wall time is
  a rational number, `time.sleep` advances it, the provider call is an oracle
  `ActivityD → ProviderOutcome` standing for `run_activity`, and the result
  records the run dictionary, the control-scope/sleep/provider events and the
  final clock;
* the pieces of the repository that are referenced but not part of the sources
  (provider validators, the orchestrator `run_experiment`, the global control
  registry) are modelled from the specification document and are marked as
  such in their doc comments.
-/

namespace Chaoslib

/-- A Python value as found in an experiment document: `None`, booleans,
numbers (modelled as rationals), strings, lists and dictionaries
(association lists keyed by strings). -/
inductive PyVal where
  | pyNone : PyVal
  | pyBool (b : Bool) : PyVal
  | pyNum (q : ℚ) : PyVal
  | pyStr (s : String) : PyVal
  | pyList (xs : List PyVal) : PyVal
  | pyDict (kvs : List (String × PyVal)) : PyVal

/-- A Python dictionary representing an activity (or experiment) mapping. -/
abbrev ActivityD := List (String × PyVal)

/-- `d.get(k)` on a Python dictionary: the stored value, or `None` when the
key is absent.  A key stored with value `None` is indistinguishable from an
absent key, exactly as in Python. -/
def dget (d : ActivityD) (k : String) : PyVal :=
  match d.find? (fun kv => kv.1 = k) with
  | some kv => kv.2
  | none => PyVal.pyNone

/-- `d.get(k, default)` on a Python dictionary. -/
def dgetD (d : ActivityD) (k : String) (default : PyVal) : PyVal :=
  match d.find? (fun kv => kv.1 = k) with
  | some kv => kv.2
  | none => default

/-- `k in d` on a Python dictionary. -/
def hasKey (d : ActivityD) (k : String) : Bool :=
  (d.find? (fun kv => kv.1 = k)).isSome

/-- Python truthiness of a value (`if v:`). -/
def truthy : PyVal → Bool
  | PyVal.pyNone => false
  | PyVal.pyBool b => b
  | PyVal.pyNum q => if q = 0 then false else true
  | PyVal.pyStr s => !s.isEmpty
  | PyVal.pyList xs => !xs.isEmpty
  | PyVal.pyDict kvs => !kvs.isEmpty

/-- `v is None` in Python. -/
def isPyNone : PyVal → Bool
  | PyVal.pyNone => true
  | _ => false

/-- `isinstance(v, numbers.Number)`: numbers and booleans (Python booleans
are integers). -/
def isNumber : PyVal → Bool
  | PyVal.pyNum _ => true
  | PyVal.pyBool _ => true
  | _ => false

/-- Python equality of a value with a string literal (`v == "s"`). -/
def eqStr : PyVal → String → Bool
  | PyVal.pyStr s, t => s = t
  | _, _ => false

/-- Python membership of a value in a tuple of string literals
(`v in ("a", "b")`). -/
def isStrIn (v : PyVal) (l : List String) : Bool :=
  l.any (fun t => eqStr v t)

/-- Numeric coercion used by `time.sleep` and by pause arithmetic: numbers
map to themselves, booleans to 0 or 1 (they are `int` in Python), everything
else is not a number. -/
def numValue : PyVal → Option ℚ
  | PyVal.pyNum q => some q
  | PyVal.pyBool b => some (if b then 1 else 0)
  | _ => none

/-- Python `str(v)`, only to the fidelity the validation messages need:
strings map to themselves.  Container and numeric renderings are
approximations of CPython's. -/
def strOfPyVal : PyVal → String
  | PyVal.pyStr s => s
  | PyVal.pyNone => "None"
  | PyVal.pyBool b => if b then "True" else "False"
  | PyVal.pyNum q => if q.den = 1 then toString q.num else toString q
  | PyVal.pyList _ => "[...]"
  | PyVal.pyDict _ => "\x7b...\x7d"

/-- Outcome of validation: success, an `InvalidActivity` exception carrying
its message, or an uncaught Python error such as `AttributeError`. -/
inductive ValErr where
  | invalidActivity (msg : String) : ValErr
  | pyCrash (msg : String) : ValErr
deriving DecidableEq, Repr

/-- The `ref` branch of `ensure_activity_is_valid` (activity.py lines 43-48):
`if not isinstance(ref, str) or ref == '': raise InvalidActivity(...)`,
then `return`. -/
def checkRef (ref : PyVal) : Except ValErr Unit :=
  match ref with
  | PyVal.pyStr s =>
      if s = "" then
        Except.error (ValErr.invalidActivity
          "reference to activity must be non-empty strings")
      else Except.ok ()
  | _ =>
      Except.error (ValErr.invalidActivity
        "reference to activity must be non-empty strings")

/-- The `timeout` stanza of `ensure_activity_is_valid`
(activity.py lines 76-79). -/
def checkTimeout (activity : ActivityD) : Except ValErr Unit :=
  let timeout := dget activity "timeout"
  if isPyNone timeout then Except.ok ()
  else if isNumber timeout then Except.ok ()
  else Except.error (ValErr.invalidActivity "activity timeout must be a number")

/-- The `pauses` stanza of `ensure_activity_is_valid`
(activity.py lines 81-88).  `pauses.get("before")` on a non-mapping value is
an `AttributeError`. -/
def checkPauses (activity : ActivityD) : Except ValErr Unit :=
  match dget activity "pauses" with
  | PyVal.pyNone => Except.ok ()
  | PyVal.pyDict ps =>
      let before := dget ps "before"
      if !(isPyNone before) && !(isNumber before) then
        Except.error (ValErr.invalidActivity
          "activity before pause must be a number")
      else
        let after := dget ps "after"
        if !(isPyNone after) && !(isNumber after) then
          Except.error (ValErr.invalidActivity
            "activity after pause must be a number")
        else Except.ok ()
  | _ =>
      Except.error (ValErr.pyCrash
        "AttributeError: object has no attribute get")

/-- The `background` stanza of `ensure_activity_is_valid`
(activity.py lines 90-92). -/
def checkBackground (activity : ActivityD) : Except ValErr Unit :=
  if hasKey activity "background" then
    match dget activity "background" with
    | PyVal.pyBool _ => Except.ok ()
    | _ =>
        Except.error (ValErr.invalidActivity
          "activity background must be a boolean")
  else Except.ok ()

/-- Modelled from the spec: `validate_python_activity` lives in
`chaoslib/provider/python.py`, which is not part of the sources.  Per
spec sections 3 and 4.1 the code provider requires `module` and `func`;
failure to resolve the module only warns, never fails. -/
def validate_python_activity (activity : ActivityD) : Except ValErr Unit :=
  match dget activity "provider" with
  | PyVal.pyDict pd =>
      if !truthy (dget pd "module") then
        Except.error (ValErr.invalidActivity
          "a python activity must have a module")
      else if !truthy (dget pd "func") then
        Except.error (ValErr.invalidActivity
          "a python activity must have a function")
      else Except.ok ()
  | _ =>
      Except.error (ValErr.pyCrash
        "AttributeError: object has no attribute get")

/-- Modelled from the spec: `validate_process_activity` lives in
`chaoslib/provider/process.py`, which is not part of the sources.  Per
spec section 3 the process provider requires `path`. -/
def validate_process_activity (activity : ActivityD) : Except ValErr Unit :=
  match dget activity "provider" with
  | PyVal.pyDict pd =>
      if !truthy (dget pd "path") then
        Except.error (ValErr.invalidActivity
          "a process activity must have a path")
      else Except.ok ()
  | _ =>
      Except.error (ValErr.pyCrash
        "AttributeError: object has no attribute get")

/-- Modelled from the spec: `validate_http_activity` lives in
`chaoslib/provider/http.py`, which is not part of the sources.  Per
spec section 3 the HTTP provider requires `url`. -/
def validate_http_activity (activity : ActivityD) : Except ValErr Unit :=
  match dget activity "provider" with
  | PyVal.pyDict pd =>
      if !truthy (dget pd "url") then
        Except.error (ValErr.invalidActivity
          "an http activity must have a url")
      else Except.ok ()
  | _ =>
      Except.error (ValErr.pyCrash
        "AttributeError: object has no attribute get")

/-- `ensure_activity_is_valid` from `chaoslib/activity.py` (lines 26-99),
translated branch by branch.  The spec calls this function
`validate_activity`. -/
def ensure_activity_is_valid (activity : ActivityD) : Except ValErr Unit :=
  if activity.isEmpty then
    Except.error (ValErr.invalidActivity "empty activity is no activity")
  else
    -- when the activity is just a ref, there is little to validate
    let ref := dget activity "ref"
    if !(isPyNone ref) then checkRef ref
    else
      let activity_type := dget activity "type"
      if !truthy activity_type then
        Except.error (ValErr.invalidActivity "an activity must have a type")
      else if !(isStrIn activity_type ["probe", "action"]) then
        Except.error (ValErr.invalidActivity
          ("'" ++ strOfPyVal activity_type ++
            "' is not a supported activity type"))
      else if !truthy (dget activity "name") then
        Except.error (ValErr.invalidActivity "an activity must have a name")
      else
        let provider := dget activity "provider"
        if !truthy provider then
          Except.error (ValErr.invalidActivity
            "an activity requires a provider")
        else
          match provider with
          | PyVal.pyDict pd =>
              let provider_type := dget pd "type"
              if !truthy provider_type then
                Except.error (ValErr.invalidActivity
                  "a provider must have a type")
              else if !(isStrIn provider_type ["python", "process", "http"]) then
                Except.error (ValErr.invalidActivity
                  ("unknown provider type '" ++ strOfPyVal provider_type ++ "'"))
              else if !truthy (dget activity "name") then
                Except.error (ValErr.invalidActivity
                  "activity must have a name (cannot be empty)")
              else
                match checkTimeout activity with
                | Except.error e => Except.error e
                | Except.ok _ =>
                  match checkPauses activity with
                  | Except.error e => Except.error e
                  | Except.ok _ =>
                    match checkBackground activity with
                    | Except.error e => Except.error e
                    | Except.ok _ =>
                      if eqStr provider_type "python" then
                        validate_python_activity activity
                      else if eqStr provider_type "process" then
                        validate_process_activity activity
                      else if eqStr provider_type "http" then
                        validate_http_activity activity
                      else Except.ok ()
          | _ =>
              Except.error (ValErr.pyCrash
                "AttributeError: object has no attribute get")

/-- The validation outcome is the `InvalidActivity` exception (as opposed to
success or an uncaught Python error). -/
def resultIsInvalidActivity : Except ValErr Unit → Bool
  | Except.error (ValErr.invalidActivity _) => true
  | _ => false

/-! ## The activity executor `execute_activity` (activity.py lines 127-202)

Wall time is modelled as a rational clock threaded through the execution:
`time.sleep(d)` advances it by `d`, and the provider call advances it by the
elapsed time reported by the provider oracle.  Observable steps (opening and
closing the activity control scope, sleeping, invoking the provider, handing
the run to the scope via `with_state`) are recorded as events. -/

/-- Outcome of `run_activity` (the provider dispatch, activity.py lines
205-233): a result value, an `ActivityFailed` exception, or any other
exception.  `elapsed` is the wall time the call consumed. -/
inductive ProviderOutcome where
  | success (value : PyVal) (elapsed : ℚ) : ProviderOutcome
  | activityFailed (msg : String) (elapsed : ℚ) : ProviderOutcome
  | otherError (msg : String) (elapsed : ℚ) : ProviderOutcome

/-- An exception escaping `execute_activity`. -/
inductive PyErr where
  | activityFailed (msg : String) : PyErr
  | otherError (msg : String) : PyErr
  | typeError (msg : String) : PyErr
  | valueError (msg : String) : PyErr
  | attributeError (msg : String) : PyErr
  | keyError (msg : String) : PyErr
deriving DecidableEq, Repr

/-- The run dictionary built by `execute_activity`.  A field holding `none`
models a key that was never written to the dictionary.  `endTime` models the
`"end"` key (`end` is reserved in Lean). -/
structure RunRec where
  activity : ActivityD
  output : PyVal
  status : Option String
  exception : Option (List String)
  start : Option ℚ
  endTime : Option ℚ
  duration : Option ℚ

instance : Inhabited RunRec :=
  ⟨⟨[], PyVal.pyNone, none, none, none, none, none⟩⟩

/-- Observable steps taken by `execute_activity`. -/
inductive Event where
  | openScope : Event
  | sleep (d : ℚ) : Event
  | invokeProvider : Event
  | withState : Event
  | closeScope : Event
deriving DecidableEq, Repr

/-- How `execute_activity` ends: a returned run, the `ActivityFailed` raised
for an unresolvable `ref` (before the control scope opens), an exception
escaping inside the scope before the run dictionary exists, or an exception
escaping with the run dictionary in the state it had at propagation. -/
inductive ExecResult where
  | ok (run : RunRec) : ExecResult
  | refFailed (msg : String) : ExecResult
  | raisedNoRun (err : PyErr) : ExecResult
  | raised (err : PyErr) (run : RunRec) : ExecResult

/-- The run dictionary carried by an execution outcome, when one exists. -/
def runOf : ExecResult → Option RunRec
  | ExecResult.ok r => some r
  | ExecResult.raised _ r => some r
  | _ => none

/-- `traceback.format_exception(ActivityFailed, x, None)`: with no traceback
object the result is the single formatted exception line. -/
def format_exception_only (msg : String) : List String :=
  ["chaoslib.exceptions.ActivityFailed: " ++ msg ++ "\n"]

/-- One pause stanza: `if pause: ... if not dry: time.sleep(pause)`
(activity.py lines 146-151 and 192-198).  `time.sleep` of a non-number is a
`TypeError` and of a negative number a `ValueError` (CPython:
`sleep length must be non-negative`); the log line alone runs when `dry` is
true, so neither error can arise in dry mode. -/
def sleepIfConfigured (pause : PyVal) (dry : Bool) (t : ℚ) :
    Except PyErr (List Event × ℚ) :=
  if truthy pause then
    if dry then Except.ok ([], t)
    else
      match numValue pause with
      | some q =>
          if q < 0 then
            Except.error (PyErr.valueError
              "sleep length must be non-negative")
          else Except.ok ([Event.sleep q], t + q)
      | none =>
          Except.error (PyErr.typeError
            "an integer is required (got type str)")
  else Except.ok ([], t)

/-- The logging statement `activity["type"].title()` (activity.py lines
153-158): `KeyError` when the key is absent, `AttributeError` when the value
is not a string. -/
def logTitleAccess (activity : ActivityD) : Except PyErr Unit :=
  if hasKey activity "type" then
    match dget activity "type" with
    | PyVal.pyStr _ => Except.ok ()
    | _ =>
        Except.error (PyErr.attributeError
          "object has no attribute title")
  else Except.error (PyErr.keyError "type")

/-- State of the `try` block of `execute_activity` when control reaches the
`finally` clause. -/
inductive TryState where
  | succeeded (result : PyVal) : TryState
  | failedCaught (msg : String) : TryState
  | escaping (err : PyErr) : TryState

/-- The `try` block of `execute_activity` (activity.py lines 169-184): run
the provider unless `dry`, record success, catch `ActivityFailed`, let any
other exception escape. -/
def tryBlock (rn : ActivityD → ProviderOutcome) (activity : ActivityD)
    (dry : Bool) (t : ℚ) : TryState × List Event × ℚ :=
  if dry then (TryState.succeeded PyVal.pyNone, [], t)
  else
    match rn activity with
    | ProviderOutcome.success v e =>
        (TryState.succeeded v, [Event.invokeProvider], t + e)
    | ProviderOutcome.activityFailed m e =>
        (TryState.failedCaught m, [Event.invokeProvider], t + e)
    | ProviderOutcome.otherError m e =>
        (TryState.escaping (PyErr.otherError m), [Event.invokeProvider], t + e)

/-- The run dictionary as the `finally` clause leaves it: the keys written by
the `try`/`except` bodies plus `start`, `end` and `duration`
(activity.py lines 162-190). -/
def runAfterFinally (activity : ActivityD) (ts : TryState)
    (start endT : ℚ) : RunRec :=
  match ts with
  | TryState.succeeded v =>
      { activity := activity, output := v, status := some "succeeded",
        exception := none, start := some start, endTime := some endT,
        duration := some (endT - start) }
  | TryState.failedCaught m =>
      { activity := activity, output := PyVal.pyNone, status := some "failed",
        exception := some (format_exception_only m), start := some start,
        endTime := some endT, duration := some (endT - start) }
  | TryState.escaping _ =>
      { activity := activity, output := PyVal.pyNone, status := none,
        exception := none, start := some start, endTime := some endT,
        duration := some (endT - start) }

/-- The body of the `with controls(...)` block of `execute_activity`
(activity.py lines 142-201), on the already-resolved activity.  The
`interrupted` flag of the source is always `False` and is elided. -/
def execBody (rn : ActivityD → ProviderOutcome) (activity : ActivityD)
    (dry : Bool) (t0 : ℚ) : ExecResult × List Event × ℚ :=
  match dgetD activity "pauses" (PyVal.pyDict []) with
  | PyVal.pyDict pd =>
      match sleepIfConfigured (dget pd "before") dry t0 with
      | Except.error e =>
          (ExecResult.raisedNoRun e, [Event.openScope, Event.closeScope], t0)
      | Except.ok (evB, t1) =>
          match logTitleAccess activity with
          | Except.error e =>
              (ExecResult.raisedNoRun e,
                Event.openScope :: evB ++ [Event.closeScope], t1)
          | Except.ok _ =>
              let start := t1
              match tryBlock rn activity dry t1 with
              | (ts, evP, t2) =>
                  let run := runAfterFinally activity ts start t2
                  match sleepIfConfigured (dget pd "after") dry t2 with
                  | Except.error e =>
                      (ExecResult.raised e run,
                        Event.openScope :: evB ++ evP ++ [Event.closeScope], t2)
                  | Except.ok (evA, t3) =>
                      match ts with
                      | TryState.escaping err =>
                          (ExecResult.raised err run,
                            Event.openScope :: evB ++ evP ++ evA ++
                              [Event.closeScope], t3)
                      | _ =>
                          (ExecResult.ok run,
                            Event.openScope :: evB ++ evP ++ evA ++
                              [Event.withState, Event.closeScope], t3)
  | _ =>
      (ExecResult.raisedNoRun
        (PyErr.attributeError "object has no attribute get"),
        [Event.openScope, Event.closeScope], t0)

/-- `execute_activity` from `chaoslib/activity.py` (lines 127-202).  `lookup`
stands for `lookup_activity` from `chaoslib.caching` (the document-scoped
activity index of the spec, section 4.3), `rn` for the provider dispatch
`run_activity`. -/
def execute_activity (lookup : PyVal → Option ActivityD)
    (rn : ActivityD → ProviderOutcome) (activity : ActivityD)
    (dry : Bool) (t0 : ℚ) : ExecResult × List Event × ℚ :=
  let ref := dget activity "ref"
  if truthy ref then
    match lookup ref with
    | some resolved =>
        if resolved.isEmpty then
          (ExecResult.refFailed
            ("could not find referenced activity '" ++ strOfPyVal ref ++ "'"),
            [], t0)
        else execBody rn resolved dry t0
    | none =>
        (ExecResult.refFailed
          ("could not find referenced activity '" ++ strOfPyVal ref ++ "'"),
          [], t0)
  else execBody rn activity dry t0

/-- The sum of the configured pauses of an activity (0 when a pause is
absent, not truthy, or not numeric). -/
def pauseSum (activity : ActivityD) : ℚ :=
  match dgetD activity "pauses" (PyVal.pyDict []) with
  | PyVal.pyDict pd =>
      (if truthy (dget pd "before") then
        (numValue (dget pd "before")).getD 0 else 0) +
      (if truthy (dget pd "after") then
        (numValue (dget pd "after")).getD 0 else 0)
  | _ => 0

/-- The effective duration of one pause value: how long `time.sleep` runs
when the pause is truthy and numeric. -/
def effPause (pause : PyVal) : ℚ :=
  if truthy pause then (numValue pause).getD 0 else 0

/-! ## The generator `run_activities` (activity.py lines 102-121) -/

/-- One item yielded by `run_activities`: the pending future of a
`pool.submit(execute_activity, ...)` call, or the completed run of a
synchronous `execute_activity` call. -/
inductive Sched where
  | future (activity : ActivityD) : Sched
  | run (r : RunRec) : Sched

/-- `run_activities` from `chaoslib/activity.py` (lines 102-121): iterate the
method in order; submit backgrounded activities to the pool and yield the
pending future, execute the others synchronously and yield the run.  An
exception raised by a synchronous `execute_activity` escapes the generator. -/
def run_activities (lookup : PyVal → Option ActivityD)
    (rn : ActivityD → ProviderOutcome) (method : List ActivityD)
    (dry : Bool) (t : ℚ) : Except ExecResult (List Sched × ℚ) :=
  match method with
  | [] => Except.ok ([], t)
  | a :: rest =>
      if truthy (dget a "background") then
        match run_activities lookup rn rest dry t with
        | Except.ok (l, t2) => Except.ok (Sched.future a :: l, t2)
        | Except.error e => Except.error e
      else
        match execute_activity lookup rn a dry t with
        | (ExecResult.ok r, _, t1) =>
            match run_activities lookup rn rest dry t1 with
            | Except.ok (l, t2) => Except.ok (Sched.run r :: l, t2)
            | Except.error e => Except.error e
        | (bad, _, _) => Except.error bad

/-! ## The orchestrator, modelled from the spec

`run_experiment` lives in `chaoslib/experiment.py`, which is not part of the
sources; only its tests are.  The model below follows spec section 4.6:
the before-hypothesis verdict gates the method (step 5), each method activity
runs through the activity executor, an exception escaping the executor sets
`status = "aborted"` (step 6 and scenario 6 of section 8), an OS interruption
signal is swallowed, stops the method, skips the rollbacks and sets
`status = "interrupted"` (the Interruption paragraph, points a, d, f), and
rollbacks otherwise run and never change the status (step 8).  Control
scopes and background scheduling are elided: the claims settled against this
model concern only journal status and rollback behavior. -/

/-- An OS interruption signal delivered during the run
(`KeyboardInterrupt` or `SystemExit`). -/
inductive Signal where
  | keyboardInterrupt : Signal
  | systemExit : Signal
deriving DecidableEq, Repr

/-- How the method phase ended. -/
inductive MethodEnd where
  | normal : MethodEnd
  | interrupted : MethodEnd
  | aborted : MethodEnd
deriving DecidableEq, Repr

/-- The journal assembled by the orchestrator (spec section 3), restricted
to the parts the claims observe. -/
structure Journal where
  status : String
  run : List RunRec
  rollbacks : List RunRec

/-- Modelled from the spec: the method loop of `run_experiment`
(chaoslib/experiment.py, not in the sources).  `interrupt i` tells whether an
OS signal arrives before method activity `i` runs; an activity whose
execution raises ends the phase as aborted. -/
def methodLoop (lookup : PyVal → Option ActivityD)
    (rn : ActivityD → ProviderOutcome) (interrupt : Nat → Option Signal)
    (dry : Bool) : List ActivityD → Nat → ℚ → List RunRec × ℚ × MethodEnd
  | [], _, t => ([], t, MethodEnd.normal)
  | a :: rest, i, t =>
      match interrupt i with
      | some _ => ([], t, MethodEnd.interrupted)
      | none =>
          match execute_activity lookup rn a dry t with
          | (ExecResult.ok r, _, t1) =>
              match methodLoop lookup rn interrupt dry rest (i + 1) t1 with
              | (runs, t2, ending) => (r :: runs, t2, ending)
          | (_, _, t1) => ([], t1, MethodEnd.aborted)

/-- Modelled from the spec: the rollback phase of `run_experiment`
(chaoslib/experiment.py, not in the sources).  Rollbacks run in order, never
backgrounded; whatever run record an execution produces is collected and
failures do not alter the journal status (spec section 4.6 step 8). -/
def rollbackPhase (lookup : PyVal → Option ActivityD)
    (rn : ActivityD → ProviderOutcome) (dry : Bool) :
    List ActivityD → ℚ → List RunRec × ℚ
  | [], t => ([], t)
  | a :: rest, t =>
      match execute_activity lookup rn a dry t with
      | (res, _, t1) =>
          match rollbackPhase lookup rn dry rest t1 with
          | (runs, t2) =>
              match runOf res with
              | some r => (r :: runs, t2)
              | none => (runs, t2)

/-- Modelled from the spec: `run_experiment` from `chaoslib/experiment.py`
(not in the sources), reduced to the phases the claims observe.
`beforeHypo` is the before-hypothesis verdict (`none` when no hypothesis is
declared); a failed verdict sets `status = "failed"` and skips the method
while rollbacks still run (spec section 4.6 step 5).  An interruption during
the method is swallowed — the function still returns a journal — with
`status = "interrupted"` and no rollbacks; an exception escaping an activity
sets `status = "aborted"`. -/
def run_experiment (lookup : PyVal → Option ActivityD)
    (rn : ActivityD → ProviderOutcome) (interrupt : Nat → Option Signal)
    (method rollbacks : List ActivityD) (beforeHypo : Option Bool)
    (dry : Bool) (t0 : ℚ) : Journal :=
  match beforeHypo with
  | some false =>
      { status := "failed", run := [],
        rollbacks := (rollbackPhase lookup rn dry rollbacks t0).1 }
  | _ =>
      match methodLoop lookup rn interrupt dry method 0 t0 with
      | (runs, t1, MethodEnd.interrupted) =>
          let _ := t1
          { status := "interrupted", run := runs, rollbacks := [] }
      | (runs, t1, MethodEnd.aborted) =>
          { status := "aborted", run := runs,
            rollbacks := (rollbackPhase lookup rn dry rollbacks t1).1 }
      | (runs, t1, MethodEnd.normal) =>
          { status := "completed", run := runs,
            rollbacks := (rollbackPhase lookup rn dry rollbacks t1).1 }

/-! ## The global control registry, modelled from the spec

The registry lives in `chaoslib/control/__init__.py`, which is not part of
the sources; only its tests are.  Spec section 4.5: `load_global_controls`
resolves each control declared in the settings and calls its optional
`configure_control`; a control whose init fails must not be added to the
registry and must not prevent others from loading — in particular the loader
itself never propagates the failure. -/

/-- A control declaration from the settings mapping: its name and its
provider payload. -/
structure ControlDecl where
  name : String
  provider : PyVal

/-- Modelled from the spec: `load_global_controls(settings)` from
`chaoslib/control/__init__.py` (not in the sources).  `configure` is the
per-control `configure_control` init; a failing init is caught, logged and
skipped, so the loader always returns a registry. -/
def load_global_controls (settings : List ControlDecl)
    (configure : String → Except String Unit) :
    Except String (List ControlDecl) :=
  match settings with
  | [] => Except.ok []
  | c :: rest =>
      match load_global_controls rest configure with
      | Except.error e => Except.error e
      | Except.ok reg =>
          match configure c.name with
          | Except.ok _ => Except.ok (c :: reg)
          | Except.error _ => Except.ok reg

/-- Modelled from the spec: invoking the control hooks iterates the registry
returned by `get_global_controls`; a control absent from the registry is
never invoked (spec section 4.5). -/
def invoked_controls (registry : List ControlDecl) : List String :=
  registry.map ControlDecl.name

/-! ## Helper lemmas -/

lemma dget_of_not_hasKey (d : ActivityD) (k : String)
    (h : hasKey d k = false) : dget d k = PyVal.pyNone := by
  unfold hasKey at h
  unfold dget
  cases hf : List.find? (fun kv => kv.1 = k) d with
  | none => rfl
  | some kv => rw [hf] at h; simp at h

lemma isEmpty_false_of_ref (activity : ActivityD)
    (h : isPyNone (dget activity "ref") = false) :
    activity.isEmpty = false := by
  cases activity with
  | nil => simp [dget, isPyNone] at h
  | cons a l => rfl

lemma hasKey_of_dget_str (d : ActivityD) (k : String) (s : String)
    (h : dget d k = PyVal.pyStr s) : hasKey d k = true := by
  unfold dget at h
  unfold hasKey
  cases hf : List.find? (fun kv => kv.1 = k) d with
  | none => rw [hf] at h; exact absurd h (by simp)
  | some kv => rfl

lemma logTitleAccess_of_str (act : ActivityD) (s : String)
    (h : dget act "type" = PyVal.pyStr s) : logTitleAccess act = Except.ok () := by
  simp [logTitleAccess, hasKey_of_dget_str act "type" s h, h]

lemma sleepIfConfigured_dry (p : PyVal) (t : ℚ) :
    sleepIfConfigured p true t = Except.ok ([], t) := by
  unfold sleepIfConfigured
  by_cases h : truthy p <;> simp [h]

/-- A pause value `time.sleep` can execute successfully: not truthy (no
sleep attempted) or a non-negative number (`time.sleep` raises `TypeError`
on non-numbers and `ValueError` on negative numbers). -/
def pauseOk (p : PyVal) : Prop :=
  truthy p = false ∨ ∃ q : ℚ, numValue p = some q ∧ 0 ≤ q

lemma sleepIfConfigured_ok (p : PyVal) (t : ℚ) (h : pauseOk p) :
    sleepIfConfigured p false t =
      Except.ok
        ((if truthy p then [Event.sleep ((numValue p).getD 0)] else []),
          t + effPause p) := by
  rcases h with h | ⟨q, hq, hq0⟩
  · simp [sleepIfConfigured, h, effPause]
  · by_cases ht : truthy p
    · simp [sleepIfConfigured, ht, hq, effPause, not_lt.mpr hq0]
    · simp [sleepIfConfigured, ht, effPause]

/-- The wall time a provider call consumes. -/
def elapsedOf : ProviderOutcome → ℚ
  | ProviderOutcome.success _ e => e
  | ProviderOutcome.activityFailed _ e => e
  | ProviderOutcome.otherError _ e => e

lemma execute_activity_direct (lookup : PyVal → Option ActivityD)
    (rn : ActivityD → ProviderOutcome) (act : ActivityD) (dry : Bool) (t0 : ℚ)
    (h : truthy (dget act "ref") = false) :
    execute_activity lookup rn act dry t0 = execBody rn act dry t0 := by
  simp [execute_activity, h]

/-- Characterization of the with-block of `execute_activity` on the normal
path: pauses well formed, `type` a string, `dry` false.  The run's `start`
is the clock after the before-pause, its `end` the clock after the provider
call, and the final clock adds the after-pause. -/
lemma execBody_normal (rn : ActivityD → ProviderOutcome) (act : ActivityD)
    (t0 : ℚ) (pd : ActivityD)
    (hpd : dgetD act "pauses" (PyVal.pyDict []) = PyVal.pyDict pd)
    (hb : pauseOk (dget pd "before")) (ha : pauseOk (dget pd "after"))
    (hty : ∃ s : String, dget act "type" = PyVal.pyStr s) :
    (execBody rn act false t0).1 =
      (match rn act with
       | ProviderOutcome.success v e =>
           ExecResult.ok (runAfterFinally act (TryState.succeeded v)
             (t0 + effPause (dget pd "before"))
             (t0 + effPause (dget pd "before") + e))
       | ProviderOutcome.activityFailed m e =>
           ExecResult.ok (runAfterFinally act (TryState.failedCaught m)
             (t0 + effPause (dget pd "before"))
             (t0 + effPause (dget pd "before") + e))
       | ProviderOutcome.otherError m e =>
           ExecResult.raised (PyErr.otherError m)
             (runAfterFinally act (TryState.escaping (PyErr.otherError m))
               (t0 + effPause (dget pd "before"))
               (t0 + effPause (dget pd "before") + e))) ∧
    (execBody rn act false t0).2.2 =
      t0 + effPause (dget pd "before") + elapsedOf (rn act) +
        effPause (dget pd "after") := by
  obtain ⟨s, hs⟩ := hty
  unfold execBody
  simp only [hpd, sleepIfConfigured_ok _ _ hb,
    logTitleAccess_of_str act s hs]
  cases hrn : rn act <;>
    simp [tryBlock, hrn, sleepIfConfigured_ok _ _ ha, elapsedOf]

lemma execBody_dry_events (rn : ActivityD → ProviderOutcome)
    (act : ActivityD) (t0 : ℚ) :
    (execBody rn act true t0).2.1 = [Event.openScope, Event.closeScope] ∨
    (execBody rn act true t0).2.1 =
      [Event.openScope, Event.withState, Event.closeScope] := by
  unfold execBody
  cases hp : dgetD act "pauses" (PyVal.pyDict []) <;>
    simp only [sleepIfConfigured_dry]
  case pyDict pd =>
    cases hl : logTitleAccess act with
    | error e => simp
    | ok u => simp [tryBlock, sleepIfConfigured_dry]
  all_goals simp

lemma execBody_dry_runOf (rn : ActivityD → ProviderOutcome)
    (act : ActivityD) (t0 : ℚ) (r : RunRec)
    (h : runOf (execBody rn act true t0).1 = some r) : r.duration = some 0 := by
  unfold execBody at h
  cases hp : dgetD act "pauses" (PyVal.pyDict []) <;> rw [hp] at h <;>
    simp only [sleepIfConfigured_dry] at h
  case pyDict pd =>
    cases hl : logTitleAccess act with
    | error e => rw [hl] at h; simp [runOf] at h
    | ok u =>
        rw [hl] at h
        simp only [tryBlock, if_true, sleepIfConfigured_dry, runOf,
          runAfterFinally, Option.some_inj] at h
        rw [← h]
        simp
  all_goals simp [runOf] at h

lemma not_sleep_not_invoke_of_scope (e : Event)
    (h : e = Event.openScope ∨ e = Event.withState ∨ e = Event.closeScope) :
    e ≠ Event.invokeProvider ∧ ∀ d : ℚ, e ≠ Event.sleep d := by
  rcases h with rfl | rfl | rfl <;> exact ⟨by simp, fun d => by simp⟩

/-! ## Claims C1, C2, C3 and C10: the activity executor -/

/-- Claim C3 (confirmed): with `dry = true`, `execute_activity` emits no
provider invocation and no sleep, every run it produces has duration 0, and
therefore the duration is strictly below the configured pause sum whenever
that sum is positive. -/
theorem claim_C3_theorem (lookup : PyVal → Option ActivityD)
    (rn : ActivityD → ProviderOutcome) (act : ActivityD) (t0 : ℚ) :
    (∀ e ∈ (execute_activity lookup rn act true t0).2.1,
        e ≠ Event.invokeProvider ∧ ∀ d : ℚ, e ≠ Event.sleep d) ∧
    (∀ r : RunRec, runOf (execute_activity lookup rn act true t0).1 = some r →
        r.duration = some 0 ∧
        (0 < pauseSum act → r.duration.getD 1 < pauseSum act)) := by
  have hmain : ∀ b : ActivityD,
      (∀ e ∈ (execBody rn b true t0).2.1,
          e ≠ Event.invokeProvider ∧ ∀ d : ℚ, e ≠ Event.sleep d) ∧
      (∀ r : RunRec, runOf (execBody rn b true t0).1 = some r →
          r.duration = some 0 ∧
          (0 < pauseSum act → r.duration.getD 1 < pauseSum act)) := by
    intro b
    constructor
    · intro e he
      apply not_sleep_not_invoke_of_scope
      rcases execBody_dry_events rn b t0 with h | h <;> rw [h] at he <;>
        simp at he <;> tauto
    · intro r hr
      have hd := execBody_dry_runOf rn b t0 r hr
      refine ⟨hd, fun hps => ?_⟩
      rw [hd]
      simpa using hps
  unfold execute_activity
  by_cases href : truthy (dget act "ref")
  · simp only [href, if_true]
    cases hl : lookup (dget act "ref") with
    | none =>
        constructor
        · intro e he; simp at he
        · intro r hr; simp [runOf] at hr
    | some resolved =>
        by_cases hre : resolved.isEmpty
        · simp only [hre, if_true]
          constructor
          · intro e he; simp at he
          · intro r hr; simp [runOf] at hr
        · simp only [hre, Bool.false_eq_true, if_false]
          exact hmain resolved
  · simp only [href, Bool.false_eq_true, if_false]
    exact hmain act

/-- Claim C3, witness: a dry run of an action configured with
`pauses.after = 30` produces a run of duration 0, strictly below the pause
sum. -/
theorem claim_C3_witness :
    ∃ r : RunRec,
      runOf (execute_activity (fun _ => none)
        (fun _ => ProviderOutcome.success PyVal.pyNone 1)
        [("type", PyVal.pyStr "action"), ("name", PyVal.pyStr "a"),
         ("pauses", PyVal.pyDict [("after", PyVal.pyNum 30)])] true 0).1 =
        some r ∧
      r.duration = some 0 ∧
      r.duration.getD 1 <
        pauseSum [("type", PyVal.pyStr "action"), ("name", PyVal.pyStr "a"),
          ("pauses", PyVal.pyDict [("after", PyVal.pyNum 30)])] := by
  have h := claim_C3_theorem (fun _ => none)
    (fun _ => ProviderOutcome.success PyVal.pyNone 1)
    [("type", PyVal.pyStr "action"), ("name", PyVal.pyStr "a"),
     ("pauses", PyVal.pyDict [("after", PyVal.pyNum 30)])] 0
  have hev : runOf (execute_activity (fun _ => none)
      (fun _ => ProviderOutcome.success PyVal.pyNone 1)
      [("type", PyVal.pyStr "action"), ("name", PyVal.pyStr "a"),
       ("pauses", PyVal.pyDict [("after", PyVal.pyNum 30)])] true 0).1 =
      some (runAfterFinally
        [("type", PyVal.pyStr "action"), ("name", PyVal.pyStr "a"),
         ("pauses", PyVal.pyDict [("after", PyVal.pyNum 30)])]
        (TryState.succeeded PyVal.pyNone) 0 0) := rfl
  have hps : (0 : ℚ) < pauseSum
      [("type", PyVal.pyStr "action"), ("name", PyVal.pyStr "a"),
       ("pauses", PyVal.pyDict [("after", PyVal.pyNum 30)])] := by
    have hval : pauseSum
        [("type", PyVal.pyStr "action"), ("name", PyVal.pyStr "a"),
         ("pauses", PyVal.pyDict [("after", PyVal.pyNum 30)])] =
        (0 : ℚ) + 30 := rfl
    rw [hval]
    norm_num
  exact ⟨_, hev, (h.2 _ hev).1, (h.2 _ hev).2 hps⟩

/-- Claim C1, counterexample.  When the provider raises an error that is not
`ActivityFailed` (here a `RuntimeError`), `execute_activity` re-raises it but
the run's `status` key is never written — in particular it is not
`"failed"` as the claim states. -/
theorem claim_C1_counterexample :
    (match (execute_activity (fun _ => none)
        (fun _ => ProviderOutcome.otherError "RuntimeError: boom" 1)
        [("type", PyVal.pyStr "action"), ("name", PyVal.pyStr "n")]
        false 0).1 with
     | ExecResult.raised (PyErr.otherError m) r =>
         m = "RuntimeError: boom" ∧ r.status = none
     | _ => False) := ⟨rfl, rfl⟩

/-- Claim C1 as amended: when the provider dispatch raises an error that is
not `ActivityFailed` and the activity's configured pauses are executable by
`time.sleep` (absent, falsy, or non-negative numbers — otherwise the
`finally` block's sleep raises and replaces the in-flight error),
`execute_activity` re-raises the provider's error to its caller, and the
run's `status` key is left unset (the run is not recorded as failed; the
`except` clause only catches `ActivityFailed`). -/
theorem claim_C1_theorem (lookup : PyVal → Option ActivityD)
    (rn : ActivityD → ProviderOutcome) (act : ActivityD) (t0 : ℚ)
    (pd : ActivityD) (m : String) (e : ℚ)
    (href : truthy (dget act "ref") = false)
    (hty : ∃ s : String, dget act "type" = PyVal.pyStr s)
    (hpd : dgetD act "pauses" (PyVal.pyDict []) = PyVal.pyDict pd)
    (hb : pauseOk (dget pd "before")) (ha : pauseOk (dget pd "after"))
    (hrn : rn act = ProviderOutcome.otherError m e) :
    ∃ r : RunRec,
      (execute_activity lookup rn act false t0).1 =
        ExecResult.raised (PyErr.otherError m) r ∧
      r.status = none ∧ r.exception = none := by
  rw [execute_activity_direct lookup rn act false t0 href]
  obtain ⟨h1, _⟩ := execBody_normal rn act t0 pd hpd hb ha hty
  rw [hrn] at h1
  exact ⟨_, h1, rfl, rfl⟩

/-- Claim C1, witness: the amended statement applied to a concrete action
whose provider raises a `RuntimeError`. -/
theorem claim_C1_witness :
    ∃ r : RunRec,
      (execute_activity (fun _ => none)
        (fun _ => ProviderOutcome.otherError "RuntimeError: boom" 1)
        [("type", PyVal.pyStr "action"), ("name", PyVal.pyStr "n")]
        false 0).1 =
        ExecResult.raised (PyErr.otherError "RuntimeError: boom") r ∧
      r.status = none ∧ r.exception = none :=
  claim_C1_theorem (fun _ => none)
    (fun _ => ProviderOutcome.otherError "RuntimeError: boom" 1)
    [("type", PyVal.pyStr "action"), ("name", PyVal.pyStr "n")] 0 []
    "RuntimeError: boom" 1 rfl ⟨"action", rfl⟩ rfl (Or.inl rfl) (Or.inl rfl)
    rfl

/-- Claim C2, counterexample.  At a negative after-pause — which passes
`ensure_activity_is_valid`, whose pause check is only
`isinstance(x, numbers.Number)` — the provider's `ActivityFailed` is caught
and the run recorded as failed, but the `finally` block's
`time.sleep(-5)` then raises `ValueError: sleep length must be non-negative`,
so no `Run` is returned to the caller: the claim's "returns a Run" fails
(the `ActivityFailed` itself is still not what propagates). -/
theorem claim_C2_counterexample :
    (match (execute_activity (fun _ => none)
        (fun _ => ProviderOutcome.activityFailed "blown on purpose" 1)
        [("type", PyVal.pyStr "probe"), ("name", PyVal.pyStr "n"),
         ("pauses", PyVal.pyDict [("after", PyVal.pyNum (-5))])]
        false 0).1 with
     | ExecResult.ok _ => False
     | ExecResult.raised (PyErr.valueError m) r =>
         m = "sleep length must be non-negative" ∧ r.status = some "failed"
     | _ => False) := ⟨rfl, rfl⟩

/-- Claim C2 as amended: when the provider raises `ActivityFailed` and the
activity's configured pauses are executable by `time.sleep` (absent, falsy,
or non-negative numbers), `execute_activity` catches it and returns (rather
than raises) a run whose `status` is `"failed"` and whose `exception` is the
formatted trace. -/
theorem claim_C2_theorem (lookup : PyVal → Option ActivityD)
    (rn : ActivityD → ProviderOutcome) (act : ActivityD) (t0 : ℚ)
    (pd : ActivityD) (m : String) (e : ℚ)
    (href : truthy (dget act "ref") = false)
    (hty : ∃ s : String, dget act "type" = PyVal.pyStr s)
    (hpd : dgetD act "pauses" (PyVal.pyDict []) = PyVal.pyDict pd)
    (hb : pauseOk (dget pd "before")) (ha : pauseOk (dget pd "after"))
    (hrn : rn act = ProviderOutcome.activityFailed m e) :
    ∃ r : RunRec,
      (execute_activity lookup rn act false t0).1 = ExecResult.ok r ∧
      r.status = some "failed" ∧
      r.exception = some (format_exception_only m) := by
  rw [execute_activity_direct lookup rn act false t0 href]
  obtain ⟨h1, _⟩ := execBody_normal rn act t0 pd hpd hb ha hty
  rw [hrn] at h1
  exact ⟨_, h1, rfl, rfl⟩

/-- Claim C2, witness: a concrete probe whose provider raises
`ActivityFailed` yields a returned run with `status = "failed"` and the
formatted trace. -/
theorem claim_C2_witness :
    ∃ r : RunRec,
      (execute_activity (fun _ => none)
        (fun _ => ProviderOutcome.activityFailed "blown on purpose" 1)
        [("type", PyVal.pyStr "probe"), ("name", PyVal.pyStr "n")]
        false 0).1 = ExecResult.ok r ∧
      r.status = some "failed" ∧
      r.exception = some (format_exception_only "blown on purpose") :=
  claim_C2_theorem (fun _ => none)
    (fun _ => ProviderOutcome.activityFailed "blown on purpose" 1)
    [("type", PyVal.pyStr "probe"), ("name", PyVal.pyStr "n")] 0 []
    "blown on purpose" 1 rfl ⟨"probe", rfl⟩ rfl (Or.inl rfl) (Or.inl rfl) rfl

/-- Claim C10 (confirmed): for a run returned by `execute_activity` —
which requires the configured pauses to be executable by `time.sleep`
(absent, falsy, or non-negative numbers), since otherwise the `finally`
block raises and no run is returned — `start` is recorded after the
before-pause completes, `end` before the after-pause begins, and
`duration = end − start` is exactly the provider's elapsed time, excluding
both pauses (the final clock adds the after-pause beyond `end`). -/
theorem claim_C10_theorem (lookup : PyVal → Option ActivityD)
    (rn : ActivityD → ProviderOutcome) (act : ActivityD) (t0 : ℚ)
    (pd : ActivityD) (e : ℚ)
    (href : truthy (dget act "ref") = false)
    (hty : ∃ s : String, dget act "type" = PyVal.pyStr s)
    (hpd : dgetD act "pauses" (PyVal.pyDict []) = PyVal.pyDict pd)
    (hb : pauseOk (dget pd "before")) (ha : pauseOk (dget pd "after"))
    (hrn : (∃ v, rn act = ProviderOutcome.success v e) ∨
      (∃ m, rn act = ProviderOutcome.activityFailed m e)) :
    ∀ r : RunRec, runOf (execute_activity lookup rn act false t0).1 = some r →
      r.start = some (t0 + effPause (dget pd "before")) ∧
      r.endTime = some (t0 + effPause (dget pd "before") + e) ∧
      r.duration = some e ∧
      (execute_activity lookup rn act false t0).2.2 =
        t0 + effPause (dget pd "before") + e + effPause (dget pd "after") := by
  intro r hr
  rw [execute_activity_direct lookup rn act false t0 href] at hr ⊢
  obtain ⟨h1, h2⟩ := execBody_normal rn act t0 pd hpd hb ha hty
  rcases hrn with ⟨v, hv⟩ | ⟨m, hm⟩
  · rw [hv] at h1 h2
    rw [h1] at hr
    simp only [runOf, Option.some_inj] at hr
    rw [← hr]
    refine ⟨rfl, rfl, ?_, by simpa [elapsedOf] using h2⟩
    simp [runAfterFinally]
  · rw [hm] at h1 h2
    rw [h1] at hr
    simp only [runOf, Option.some_inj] at hr
    rw [← hr]
    refine ⟨rfl, rfl, ?_, by simpa [elapsedOf] using h2⟩
    simp [runAfterFinally]

/-- Claim C10, witness: with `pauses = (before 2, after 3)` and a provider
taking 5 seconds, the returned run has `duration = 5`. -/
theorem claim_C10_witness :
    ∃ r : RunRec,
      runOf (execute_activity (fun _ => none)
        (fun _ => ProviderOutcome.success PyVal.pyNone 5)
        [("type", PyVal.pyStr "probe"), ("name", PyVal.pyStr "p"),
         ("pauses", PyVal.pyDict [("before", PyVal.pyNum 2),
           ("after", PyVal.pyNum 3)])] false 0).1 = some r ∧
      r.duration = some 5 := by
  have h := claim_C10_theorem (fun _ => none)
    (fun _ => ProviderOutcome.success PyVal.pyNone 5)
    [("type", PyVal.pyStr "probe"), ("name", PyVal.pyStr "p"),
     ("pauses", PyVal.pyDict [("before", PyVal.pyNum 2),
       ("after", PyVal.pyNum 3)])] 0
    [("before", PyVal.pyNum 2), ("after", PyVal.pyNum 3)] 5 rfl
    ⟨"probe", rfl⟩ rfl (Or.inr ⟨2, rfl, by norm_num⟩)
    (Or.inr ⟨3, rfl, by norm_num⟩) (Or.inl ⟨PyVal.pyNone, rfl⟩)
  have hev : runOf (execute_activity (fun _ => none)
      (fun _ => ProviderOutcome.success PyVal.pyNone 5)
      [("type", PyVal.pyStr "probe"), ("name", PyVal.pyStr "p"),
       ("pauses", PyVal.pyDict [("before", PyVal.pyNum 2),
         ("after", PyVal.pyNum 3)])] false 0).1 =
      some (runAfterFinally
        [("type", PyVal.pyStr "probe"), ("name", PyVal.pyStr "p"),
         ("pauses", PyVal.pyDict [("before", PyVal.pyNum 2),
           ("after", PyVal.pyNum 3)])]
        (TryState.succeeded PyVal.pyNone) (0 + 2) (0 + 2 + 5)) := rfl
  exact ⟨_, hev, (h _ hev).2.2.1⟩

/-! ## Claims C5 and C6: activity validation -/

/-- Claim C5, counterexample.  `ensure_activity_is_valid` rejects the
provider type `"code"` with `InvalidActivity` although the claim says
`"code"` passes the provider-type check, and it accepts the provider type
`"python"` although the claim says every type other than code, process and
http is rejected. -/
theorem claim_C5_counterexample :
    ensure_activity_is_valid
      [("type", PyVal.pyStr "probe"), ("name", PyVal.pyStr "x"),
       ("provider", PyVal.pyDict [("type", PyVal.pyStr "code"),
         ("module", PyVal.pyStr "m"), ("func", PyVal.pyStr "f")])] =
      Except.error (ValErr.invalidActivity "unknown provider type 'code'") ∧
    ensure_activity_is_valid
      [("type", PyVal.pyStr "probe"), ("name", PyVal.pyStr "x"),
       ("provider", PyVal.pyDict [("type", PyVal.pyStr "python"),
         ("module", PyVal.pyStr "m"), ("func", PyVal.pyStr "f")])] =
      Except.ok () :=
  ⟨rfl, rfl⟩

/-- Claim C5 as amended: for a full activity definition (no `ref` key) whose
provider is a mapping, `ensure_activity_is_valid` accepts exactly the
provider types `python`, `process` and `http`: any other provider type (or a
missing one) is rejected with `InvalidActivity`, while well-formed
activities of the three accepted types pass validation. -/
theorem claim_C5_theorem (activity : ActivityD) (pd : ActivityD)
    (href : hasKey activity "ref" = false)
    (hprov : dget activity "provider" = PyVal.pyDict pd)
    (hty : isStrIn (dget pd "type") ["python", "process", "http"] = false) :
    resultIsInvalidActivity (ensure_activity_is_valid activity) = true ∧
    ensure_activity_is_valid
      [("type", PyVal.pyStr "probe"), ("name", PyVal.pyStr "x"),
       ("provider", PyVal.pyDict [("type", PyVal.pyStr "python"),
         ("module", PyVal.pyStr "m"), ("func", PyVal.pyStr "f")])] =
      Except.ok () ∧
    ensure_activity_is_valid
      [("type", PyVal.pyStr "action"), ("name", PyVal.pyStr "x"),
       ("provider", PyVal.pyDict [("type", PyVal.pyStr "process"),
         ("path", PyVal.pyStr "/bin/true")])] =
      Except.ok () ∧
    ensure_activity_is_valid
      [("type", PyVal.pyStr "probe"), ("name", PyVal.pyStr "x"),
       ("provider", PyVal.pyDict [("type", PyVal.pyStr "http"),
         ("url", PyVal.pyStr "http://example.com")])] =
      Except.ok () := by
  refine ⟨?_, rfl, rfl, rfl⟩
  have h0 : dget activity "ref" = PyVal.pyNone := dget_of_not_hasKey _ _ href
  unfold ensure_activity_is_valid
  rw [h0, hprov]
  by_cases hemp : activity.isEmpty
  · simp [hemp, resultIsInvalidActivity]
  · simp only [hemp, if_false, isPyNone, Bool.not_false, if_true]
    by_cases h1 : truthy (dget activity "type")
    · simp only [h1, Bool.not_true, Bool.false_eq_true, if_false]
      by_cases h2 : isStrIn (dget activity "type") ["probe", "action"]
      · simp only [h2, Bool.not_true, Bool.false_eq_true, if_false]
        by_cases h3 : truthy (dget activity "name")
        · simp only [h3, Bool.not_true, Bool.false_eq_true, if_false]
          by_cases h4 : truthy (PyVal.pyDict pd)
          · simp only [h4, Bool.not_true, Bool.false_eq_true, if_false]
            by_cases h5 : truthy (dget pd "type")
            · simp [h5, hty, resultIsInvalidActivity]
            · simp [h5, resultIsInvalidActivity]
          · simp [h4, resultIsInvalidActivity]
        · simp [h3, resultIsInvalidActivity]
      · simp [h2, resultIsInvalidActivity]
    · simp [h1, resultIsInvalidActivity]

/-- Claim C5, witness: the rejection branch of `claim_C5_theorem` applied to
a concrete activity whose provider type is `"code"`. -/
theorem claim_C5_witness :
    resultIsInvalidActivity (ensure_activity_is_valid
      [("type", PyVal.pyStr "probe"), ("name", PyVal.pyStr "x"),
       ("provider", PyVal.pyDict [("type", PyVal.pyStr "code"),
         ("module", PyVal.pyStr "m"), ("func", PyVal.pyStr "f")])]) = true :=
  (claim_C5_theorem
    [("type", PyVal.pyStr "probe"), ("name", PyVal.pyStr "x"),
     ("provider", PyVal.pyDict [("type", PyVal.pyStr "code"),
       ("module", PyVal.pyStr "m"), ("func", PyVal.pyStr "f")])]
    [("type", PyVal.pyStr "code"), ("module", PyVal.pyStr "m"),
     ("func", PyVal.pyStr "f")]
    rfl rfl rfl).1

/-- Claim C6, counterexample.  An activity whose `ref` key is present but
holds `None` is not rejected: `activity.get("ref") is not None` treats it as
absent, validation falls through to the full-definition checks and succeeds,
although `None` is not a non-empty string. -/
theorem claim_C6_counterexample :
    hasKey
      [("ref", PyVal.pyNone), ("type", PyVal.pyStr "probe"),
       ("name", PyVal.pyStr "x"),
       ("provider", PyVal.pyDict [("type", PyVal.pyStr "python"),
         ("module", PyVal.pyStr "m"), ("func", PyVal.pyStr "f")])]
      "ref" = true ∧
    dget
      [("ref", PyVal.pyNone), ("type", PyVal.pyStr "probe"),
       ("name", PyVal.pyStr "x"),
       ("provider", PyVal.pyDict [("type", PyVal.pyStr "python"),
         ("module", PyVal.pyStr "m"), ("func", PyVal.pyStr "f")])]
      "ref" = PyVal.pyNone ∧
    ensure_activity_is_valid
      [("ref", PyVal.pyNone), ("type", PyVal.pyStr "probe"),
       ("name", PyVal.pyStr "x"),
       ("provider", PyVal.pyDict [("type", PyVal.pyStr "python"),
         ("module", PyVal.pyStr "m"), ("func", PyVal.pyStr "f")])] =
      Except.ok () :=
  ⟨rfl, rfl, rfl⟩

/-- Claim C6 as amended: for every activity mapping in which the `ref` key
is present with a non-`None` value, `ensure_activity_is_valid` raises
`InvalidActivity` exactly when that value is not a non-empty string, and
when it is a non-empty string the function returns successfully without
checking any other field of the activity. -/
theorem claim_C6_theorem (activity : ActivityD)
    (h : isPyNone (dget activity "ref") = false) :
    (∀ s : String, dget activity "ref" = PyVal.pyStr s → s ≠ "" →
      ensure_activity_is_valid activity = Except.ok ()) ∧
    ((∀ s : String, dget activity "ref" = PyVal.pyStr s → s = "") →
      ensure_activity_is_valid activity =
        Except.error (ValErr.invalidActivity
          "reference to activity must be non-empty strings")) := by
  have hemp : activity.isEmpty = false := isEmpty_false_of_ref activity h
  constructor
  · intro s hs hne
    unfold ensure_activity_is_valid
    rw [hs] at h ⊢
    simp [hemp, h, checkRef, hne]
  · intro hall
    unfold ensure_activity_is_valid
    simp only [hemp, Bool.false_eq_true, if_false, h, Bool.not_false, if_true]
    cases hr : dget activity "ref" with
    | pyStr s =>
        have hse : s = "" := hall s hr
        simp [checkRef, hse]
    | pyNone => rw [hr] at h; simp [isPyNone] at h
    | pyBool b => simp [checkRef]
    | pyNum q => simp [checkRef]
    | pyList xs => simp [checkRef]
    | pyDict kvs => simp [checkRef]

/-- Claim C6, witness: both branches of `claim_C6_theorem` at concrete
inputs — a non-empty string reference is accepted with no other key present,
a numeric reference is rejected. -/
theorem claim_C6_witness :
    ensure_activity_is_valid [("ref", PyVal.pyStr "other")] =
      Except.ok () ∧
    ensure_activity_is_valid [("ref", PyVal.pyNum 5)] =
      Except.error (ValErr.invalidActivity
        "reference to activity must be non-empty strings") :=
  ⟨(claim_C6_theorem [("ref", PyVal.pyStr "other")] rfl).1 "other" rfl
      (by decide),
    (claim_C6_theorem [("ref", PyVal.pyNum 5)] rfl).2
      (fun s hs => by simp [dget] at hs)⟩

/-! ## Claim C7: foreground/background scheduling in `run_activities` -/

/-- The shape claim C7 asserts of each yielded item: a pending future for an
activity whose `background` field is `true`, a completed run for every other
activity. -/
def itemMatchesClaim (a : ActivityD) (s : Sched) : Prop :=
  match dget a "background" with
  | PyVal.pyBool true => s = Sched.future a
  | _ => ∃ r : RunRec, s = Sched.run r

/-- Claim C7 (confirmed): over a method whose `background` fields are absent
or boolean (as validation guarantees) and whose foreground activities return
runs, `run_activities` yields exactly one item per method entry, in order:
the pending future for `background = true` activities, the completed run for
all others. -/
theorem claim_C7_theorem (lookup : PyVal → Option ActivityD)
    (rn : ActivityD → ProviderOutcome) (method : List ActivityD)
    (dry : Bool) (t0 : ℚ)
    (hbg : ∀ a ∈ method, dget a "background" = PyVal.pyNone ∨
      ∃ b : Bool, dget a "background" = PyVal.pyBool b)
    (hok : ∀ a ∈ method, truthy (dget a "background") = false →
      ∀ t : ℚ, ∃ r : RunRec,
        (execute_activity lookup rn a dry t).1 = ExecResult.ok r) :
    ∃ l tEnd, run_activities lookup rn method dry t0 = Except.ok (l, tEnd) ∧
      l.length = method.length ∧ List.Forall₂ itemMatchesClaim method l := by
  induction method generalizing t0 with
  | nil => exact ⟨[], t0, rfl, rfl, List.Forall₂.nil⟩
  | cons a rest ih =>
      have hbga := hbg a (List.mem_cons_self a rest)
      have hbgr : ∀ b ∈ rest, dget b "background" = PyVal.pyNone ∨
          ∃ c : Bool, dget b "background" = PyVal.pyBool c :=
        fun b hb => hbg b (List.mem_cons_of_mem a hb)
      have hokr : ∀ b ∈ rest, truthy (dget b "background") = false →
          ∀ t : ℚ, ∃ r : RunRec,
            (execute_activity lookup rn b dry t).1 = ExecResult.ok r :=
        fun b hb => hok b (List.mem_cons_of_mem a hb)
      by_cases hb : truthy (dget a "background")
      · obtain ⟨l, tEnd, hrest, hlen, hfa⟩ := ih t0 hbgr hokr
        have hbt : dget a "background" = PyVal.pyBool true := by
          rcases hbga with hn | ⟨b, hbb⟩
          · rw [hn] at hb; simp [truthy] at hb
          · rw [hbb] at hb; simp [truthy] at hb; rw [hbb, hb]
        refine ⟨Sched.future a :: l, tEnd, ?_, by simp [hlen], ?_⟩
        · simp [run_activities, hb, hrest]
        · exact List.Forall₂.cons (by simp [itemMatchesClaim, hbt]) hfa
      · obtain ⟨r, hr⟩ := hok a (List.mem_cons_self a rest)
          (by simpa using hb) t0
        rcases hE : execute_activity lookup rn a dry t0 with ⟨res, evs, t1⟩
        rw [hE] at hr
        simp only at hr
        obtain ⟨l, tEnd, hrest, hlen, hfa⟩ := ih t1 hbgr hokr
        refine ⟨Sched.run r :: l, tEnd, ?_, by simp [hlen], ?_⟩
        · simp [run_activities, hb, hE, hr, hrest]
        · refine List.Forall₂.cons ?_ hfa
          unfold itemMatchesClaim
          rcases hbga with hn | ⟨b, hbb⟩
          · rw [hn]; exact ⟨r, rfl⟩
          · rw [hbb] at hb ⊢
            simp [truthy] at hb
            rw [hb]
            exact ⟨r, rfl⟩

/-- Claim C7, witness: a two-entry method — a backgrounded action followed
by a foreground probe — yields the pending future then the completed run. -/
theorem claim_C7_witness :
    ∃ l tEnd, run_activities (fun _ => none)
      (fun _ => ProviderOutcome.success PyVal.pyNone 1)
      [[("type", PyVal.pyStr "action"), ("name", PyVal.pyStr "bg"),
        ("background", PyVal.pyBool true)],
       [("type", PyVal.pyStr "probe"), ("name", PyVal.pyStr "fg")]]
      false 0 = Except.ok (l, tEnd) ∧
      l.length = 2 ∧
      List.Forall₂ itemMatchesClaim
        [[("type", PyVal.pyStr "action"), ("name", PyVal.pyStr "bg"),
          ("background", PyVal.pyBool true)],
         [("type", PyVal.pyStr "probe"), ("name", PyVal.pyStr "fg")]] l := by
  have h := claim_C7_theorem (fun _ => none)
    (fun _ => ProviderOutcome.success PyVal.pyNone 1)
    [[("type", PyVal.pyStr "action"), ("name", PyVal.pyStr "bg"),
      ("background", PyVal.pyBool true)],
     [("type", PyVal.pyStr "probe"), ("name", PyVal.pyStr "fg")]]
    false 0 ?_ ?_
  · exact h
  · intro a ha
    simp only [List.mem_cons, List.not_mem_nil, or_false] at ha
    rcases ha with rfl | rfl
    · exact Or.inr ⟨true, rfl⟩
    · exact Or.inl rfl
  · intro a ha hfg t
    simp only [List.mem_cons, List.not_mem_nil, or_false] at ha
    rcases ha with rfl | rfl
    · simp [truthy, dget] at hfg
    · exact ⟨runAfterFinally
        [("type", PyVal.pyStr "probe"), ("name", PyVal.pyStr "fg")]
        (TryState.succeeded PyVal.pyNone) t (t + 1), rfl⟩

/-! ## Claims C4 and C8: the orchestrator (modelled from the spec) -/

lemma methodLoop_aborted (lookup : PyVal → Option ActivityD)
    (rn : ActivityD → ProviderOutcome) (interrupt : Nat → Option Signal)
    (dry : Bool) (l : List ActivityD) (i : Nat) (t : ℚ)
    (hni : ∀ j : Nat, interrupt j = none)
    (hbad : ∃ a ∈ l, ∀ t' : ℚ, ∀ r : RunRec,
      (execute_activity lookup rn a dry t').1 ≠ ExecResult.ok r) :
    (methodLoop lookup rn interrupt dry l i t).2.2 = MethodEnd.aborted := by
  induction l generalizing i t with
  | nil => rcases hbad with ⟨a, ha, _⟩; simp at ha
  | cons a rest ih =>
      unfold methodLoop
      rw [hni i]
      rcases hE : execute_activity lookup rn a dry t with ⟨res, evs, t1⟩
      cases res with
      | ok r =>
          rcases hbad with ⟨b, hb, hbprop⟩
          rcases List.mem_cons.mp hb with rfl | hbrest
          · exact absurd (by rw [hE]) (hbprop t r)
          · rcases hM : methodLoop lookup rn interrupt dry rest (i + 1) t1
              with ⟨runs, t2, ending⟩
            have := ih (i + 1) t1 ⟨b, hbrest, hbprop⟩
            rw [hM] at this
            simp only at this
            simp [hM, this]
      | refFailed msg => simp
      | raisedNoRun err => simp
      | raised err rr => simp

/-- Claim C4 (confirmed; the journal half is settled against the
spec-modelled orchestrator): for an activity whose `ref` is truthy but
resolves to no activity, `execute_activity` raises `ActivityFailed` with an
empty event trace — the activity control scope is never opened — and a
`run_experiment` whose method contains such an activity (absent interrupts
and with a passing or absent hypothesis) returns a journal with
`status = "aborted"`. -/
theorem claim_C4_theorem (lookup : PyVal → Option ActivityD)
    (rn : ActivityD → ProviderOutcome) (interrupt : Nat → Option Signal)
    (act : ActivityD) (method rollbacks : List ActivityD)
    (bh : Option Bool) (dry : Bool) (t0 : ℚ)
    (hact : truthy (dget act "ref") = true)
    (hlk : lookup (dget act "ref") = none)
    (hmem : act ∈ method)
    (hni : ∀ j : Nat, interrupt j = none)
    (hbh : bh ≠ some false) :
    (∀ t : ℚ, execute_activity lookup rn act dry t =
      (ExecResult.refFailed
        ("could not find referenced activity '" ++
          strOfPyVal (dget act "ref") ++ "'"), [], t)) ∧
    (run_experiment lookup rn interrupt method rollbacks bh dry t0).status =
      "aborted" := by
  have hfail : ∀ t : ℚ, execute_activity lookup rn act dry t =
      (ExecResult.refFailed
        ("could not find referenced activity '" ++
          strOfPyVal (dget act "ref") ++ "'"), [], t) := by
    intro t
    simp [execute_activity, hact, hlk]
  refine ⟨hfail, ?_⟩
  have hend := methodLoop_aborted lookup rn interrupt dry method 0 t0 hni
    ⟨act, hmem, fun t' r => by rw [hfail t']; simp⟩
  unfold run_experiment
  cases bh with
  | none =>
      rcases hM : methodLoop lookup rn interrupt dry method 0 t0
        with ⟨runs, t1, ending⟩
      rw [hM] at hend
      simp only at hend
      subst hend
      simp [hM]
  | some b =>
      cases b with
      | false => exact absurd rfl hbh
      | true =>
          rcases hM : methodLoop lookup rn interrupt dry method 0 t0
            with ⟨runs, t1, ending⟩
          rw [hM] at hend
          simp only at hend
          subst hend
          simp [hM]

/-- Claim C4, witness: an experiment whose only method entry is
`ref: "nope"` with an empty activity index aborts. -/
theorem claim_C4_witness :
    (∀ t : ℚ, execute_activity (fun _ => none)
      (fun _ => ProviderOutcome.success PyVal.pyNone 1)
      [("ref", PyVal.pyStr "nope")] true t =
      (ExecResult.refFailed "could not find referenced activity 'nope'",
        [], t)) ∧
    (run_experiment (fun _ => none)
      (fun _ => ProviderOutcome.success PyVal.pyNone 1) (fun _ => none)
      [[("ref", PyVal.pyStr "nope")]] [] none true 0).status = "aborted" :=
  claim_C4_theorem (fun _ => none)
    (fun _ => ProviderOutcome.success PyVal.pyNone 1) (fun _ => none)
    [("ref", PyVal.pyStr "nope")] [[("ref", PyVal.pyStr "nope")]] [] none
    true 0 rfl rfl (List.mem_cons_self _ _) (fun _ => rfl) (by simp)

/-- Claim C8 (settled against the spec-modelled orchestrator): an OS
interruption signal arriving during the method is swallowed —
`run_experiment` still returns a journal — the rollbacks are skipped, and
the journal status is `"interrupted"`. -/
theorem claim_C8_theorem (lookup : PyVal → Option ActivityD)
    (rn : ActivityD → ProviderOutcome) (interrupt : Nat → Option Signal)
    (a : ActivityD) (rest rollbacks : List ActivityD)
    (bh : Option Bool) (dry : Bool) (t0 : ℚ) (sig : Signal)
    (hint : interrupt 0 = some sig)
    (hbh : bh ≠ some false) :
    (run_experiment lookup rn interrupt (a :: rest) rollbacks bh dry
      t0).status = "interrupted" ∧
    (run_experiment lookup rn interrupt (a :: rest) rollbacks bh dry
      t0).rollbacks = [] := by
  have hloop : methodLoop lookup rn interrupt dry (a :: rest) 0 t0 =
      ([], t0, MethodEnd.interrupted) := by
    unfold methodLoop
    rw [hint]
  cases bh with
  | none => unfold run_experiment; rw [hloop]; exact ⟨rfl, rfl⟩
  | some b =>
      cases b with
      | false => exact absurd rfl hbh
      | true => unfold run_experiment; rw [hloop]; exact ⟨rfl, rfl⟩

/-- Claim C8, witness: a `KeyboardInterrupt` at the start of a one-action
method (the action configured with `pauses.after = 30`) yields an
interrupted journal with no rollback runs, even though a rollback is
declared. -/
theorem claim_C8_witness :
    (run_experiment (fun _ => none)
      (fun _ => ProviderOutcome.success PyVal.pyNone 1)
      (fun _ => some Signal.keyboardInterrupt)
      [[("type", PyVal.pyStr "action"), ("name", PyVal.pyStr "a"),
        ("pauses", PyVal.pyDict [("after", PyVal.pyNum 30)])]]
      [[("type", PyVal.pyStr "action"), ("name", PyVal.pyStr "undo")]]
      none false 0).status = "interrupted" ∧
    (run_experiment (fun _ => none)
      (fun _ => ProviderOutcome.success PyVal.pyNone 1)
      (fun _ => some Signal.keyboardInterrupt)
      [[("type", PyVal.pyStr "action"), ("name", PyVal.pyStr "a"),
        ("pauses", PyVal.pyDict [("after", PyVal.pyNum 30)])]]
      [[("type", PyVal.pyStr "action"), ("name", PyVal.pyStr "undo")]]
      none false 0).rollbacks = [] :=
  claim_C8_theorem (fun _ => none)
    (fun _ => ProviderOutcome.success PyVal.pyNone 1)
    (fun _ => some Signal.keyboardInterrupt)
    [("type", PyVal.pyStr "action"), ("name", PyVal.pyStr "a"),
     ("pauses", PyVal.pyDict [("after", PyVal.pyNum 30)])] []
    [[("type", PyVal.pyStr "action"), ("name", PyVal.pyStr "undo")]]
    none false 0 Signal.keyboardInterrupt rfl (by simp)

/-! ## Claim C9: the global control registry (modelled from the spec) -/

lemma load_global_controls_eq (settings : List ControlDecl)
    (configure : String → Except String Unit) :
    load_global_controls settings configure =
      Except.ok (settings.filter (fun c =>
        match configure c.name with
        | Except.ok _ => true
        | Except.error _ => false)) := by
  induction settings with
  | nil => rfl
  | cons c rest ih =>
      unfold load_global_controls
      rw [ih]
      cases hc : configure c.name <;> simp [hc, List.filter]

/-- Claim C9 (settled against the spec-modelled registry): a control whose
`configure_control` init fails is absent from the loaded registry and is
never invoked by the hooks, the other declared controls still load, and the
loader itself returns a registry rather than propagating the failure. -/
theorem claim_C9_theorem (settings : List ControlDecl)
    (configure : String → Except String Unit) (nm e : String)
    (hfail : configure nm = Except.error e) :
    ∃ reg : List ControlDecl,
      load_global_controls settings configure = Except.ok reg ∧
      nm ∉ reg.map ControlDecl.name ∧
      (∀ c ∈ settings, configure c.name = Except.ok () → c ∈ reg) ∧
      nm ∉ invoked_controls reg := by
  refine ⟨settings.filter (fun c =>
      match configure c.name with
      | Except.ok _ => true
      | Except.error _ => false),
    load_global_controls_eq settings configure, ?_, ?_, ?_⟩
  · intro hmem
    rcases List.mem_map.mp hmem with ⟨c, hc, hcname⟩
    have := (List.mem_filter.mp hc).2
    rw [hcname, hfail] at this
    simp at this
  · intro c hc hok
    exact List.mem_filter.mpr ⟨hc, by rw [hok]⟩
  · intro hmem
    unfold invoked_controls at hmem
    rcases List.mem_map.mp hmem with ⟨c, hc, hcname⟩
    have := (List.mem_filter.mp hc).2
    rw [hcname, hfail] at this
    simp at this

/-- Claim C9, witness: with two declared controls of which
`dummy-failed` has a failing init, the registry holds exactly `dummy`. -/
theorem claim_C9_witness :
    ∃ reg : List ControlDecl,
      load_global_controls
        [⟨"dummy-failed", PyVal.pyStr "fixtures.controls.dummy_with_failing_init"⟩,
         ⟨"dummy", PyVal.pyStr "fixtures.controls.dummy"⟩]
        (fun n => if n = "dummy-failed" then Except.error "boom"
          else Except.ok ()) = Except.ok reg ∧
      "dummy-failed" ∉ reg.map ControlDecl.name ∧
      (∀ c ∈ [(⟨"dummy-failed",
          PyVal.pyStr "fixtures.controls.dummy_with_failing_init"⟩ :
            ControlDecl),
          ⟨"dummy", PyVal.pyStr "fixtures.controls.dummy"⟩],
        (if c.name = "dummy-failed" then Except.error "boom"
          else Except.ok ()) = Except.ok () → c ∈ reg) ∧
      "dummy-failed" ∉ invoked_controls reg :=
  claim_C9_theorem
    [⟨"dummy-failed", PyVal.pyStr "fixtures.controls.dummy_with_failing_init"⟩,
     ⟨"dummy", PyVal.pyStr "fixtures.controls.dummy"⟩]
    (fun n => if n = "dummy-failed" then Except.error "boom"
      else Except.ok ())
    "dummy-failed" "boom" rfl

end Chaoslib
